import Mathlib

/-!
Verification of the MySqlDB convenience layer (package `database`).

The Go source is shallowly embedded: the dynamic row-materialization
engine (`makeRow`, `getRowValue`, `getResultantRow`, `rowResultWalk`,
`parseRowResults`, `QueryRaw`), the single-row lookups (`Row`,
`RowByStringField`), the record helper (`Record.Update`), the config
supplementation (`hasAllConfigs`, `supplementConfigs`, `setDBConfig`,
`setConfigs`, `Make`, `MakeSchemaless`) and `SetSchema` / `connect`.

The external SQL driver is out of scope; it enters as data: a `Cursor`
carries the outcomes the driver would report (column names, column
types, per-row scan outcomes, the terminal error), and `Exec` is an
abstract function returning an `ExecResult`. Go errors are modelled as
their message strings. Go's `float64` payloads are carried as `Rat`:
no arithmetic is ever performed on them in this code, they are only
moved from the scan target into the generic record, so any inhabited
type with a zero value is a faithful carrier.
-/

namespace MySqlDB

/-- Go `error` values, modelled by their message strings. -/
abbrev Err := String

/-- A generic value stored in a result record (`map[string]interface{}`
in Go). `vNull` is Go's nil interface value (it arises from a lookup of
a missing key in a Go map, as in `Record.Update`); the other three are
what `getRowValue` unwraps from the scan targets. -/
inductive Value where
  | vInt (i : Int)
  | vFloat (q : Rat)
  | vStr (s : String)
  | vNull
deriving DecidableEq, Repr

/-- A populated scan target: one of `sql.NullInt64`, `sql.NullFloat64`,
`sql.NullString`, carrying the payload field and the `Valid` flag. -/
inductive ScanTarget where
  | nullInt (int64 : Int) (valid : Bool)
  | nullFloat (float64 : Rat) (valid : Bool)
  | nullString (string : String) (valid : Bool)
deriving DecidableEq, Repr

/-- The three scan-target kinds the type resolver can pick
(which nullable holder `makeRow` allocates for a column). -/
inductive ColKind where
  | nullInt
  | nullFloat
  | nullString
deriving DecidableEq, Repr

/-- Association-list model of a Go map: assignment `m[k] = v`
overwrites the entry for `k` if present, else appends it. -/
def mapInsert {α : Type} : List (String × α) → String → α → List (String × α)
  | [], k, v => [(k, v)]
  | (k0, v0) :: rest, k, v =>
      if k0 = k then (k, v) :: rest else (k0, v0) :: mapInsert rest k v

/-- Association-list model of a Go map read: the value stored at `k`,
if any. (An insert-built list has at most one entry per key.) -/
def mapLookup {α : Type} : List (String × α) → String → Option α
  | [], _ => none
  | (k0, v0) :: rest, k => if k0 = k then some v0 else mapLookup rest k

/-- Embeds `getRowValue` (src/database.go:250-275): the scan target is
dereferenced and type-asserted against `sql.NullString`, `sql.NullInt64`
and `sql.NullFloat64` in turn; the matching assertion returns the
holder's payload field (`.String`, `.Int64`, `.Float64`). The `Valid`
flag is never consulted. -/
def getRowValue : ScanTarget → Value
  | .nullString s _ => .vStr s
  | .nullInt i _ => .vInt i
  | .nullFloat q _ => .vFloat q

/-- Embeds the dispatch of `makeRow`'s switch statement
(src/database.go:278-385): the reported database type name selects
which nullable holder is allocated for the column. Go's `switch` on
strings compares case-sensitively, and the default arm allocates a
`sql.NullString`. -/
def resolveKind (t : String) : ColKind :=
  match t with
  | "INT" | "BIT" | "TINYINT" | "BOOL" | "BOOLEAN" | "SMALLINT"
  | "MEDIUMINT" | "INTEGER" | "BIGINT" => .nullInt
  | "FLOAT" | "DOUBLE" | "DECIMAL" | "DEC" => .nullFloat
  | "CHAR" | "VARCHAR" | "BINARY" | "VARBINARY" | "TINYBLOB" | "TINYTEXT"
  | "TEXT" | "BLOB" | "MEDIUMTEXT" | "MEDIUMBLOB" | "LONGTEXT" | "LONGBLOB"
  | "ENUM" | "SET" | "DATE" | "DATETIME" | "TIMESTAMP" | "TIME"
  | "YEAR" => .nullString
  | _ => .nullString

/-- The integer-family type names of `makeRow`'s switch, in source order. -/
def intTypeNames : List String :=
  ["INT", "BIT", "TINYINT", "BOOL", "BOOLEAN", "SMALLINT",
   "MEDIUMINT", "INTEGER", "BIGINT"]

/-- The float/decimal-family type names of `makeRow`'s switch. -/
def floatTypeNames : List String :=
  ["FLOAT", "DOUBLE", "DECIMAL", "DEC"]

/-- The text/binary/enum/temporal type names of `makeRow`'s switch. -/
def stringTypeNames : List String :=
  ["CHAR", "VARCHAR", "BINARY", "VARBINARY", "TINYBLOB", "TINYTEXT",
   "TEXT", "BLOB", "MEDIUMTEXT", "MEDIUMBLOB", "LONGTEXT", "LONGBLOB",
   "ENUM", "SET", "DATE", "DATETIME", "TIMESTAMP", "TIME", "YEAR"]

/-- The zero-valued holder of each kind, as allocated by
`var newCol sql.NullInt64` etc. inside `makeRow`: payload at the
type's zero value, `Valid` false. -/
def zeroTarget : ColKind → ScanTarget
  | .nullInt => .nullInt 0 false
  | .nullFloat => .nullFloat 0 false
  | .nullString => .nullString "" false

/-- Embeds `makeRow` (src/database.go:278-385): one fresh zero-valued
holder per column, whose kind is selected by the switch on
`typeMapping[v]` (a missing map key reads as the empty string, which
takes the default arm). -/
def makeRow (typeMapping : List (String × String)) (cols : List String) :
    List ScanTarget :=
  cols.map fun v => zeroTarget (resolveKind ((mapLookup typeMapping v).getD ""))

/-- Embeds `mapColTypes` (src/database.go:239-247): builds the
column-name → database-type-name map from the cursor's column
type descriptors. -/
def mapColTypes (colTypes : List (String × String)) : List (String × String) :=
  colTypes.foldl (fun m p => mapInsert m p.1 p.2) []

/-- A generic record: `map[string]interface{}` built by
`getResultantRow`'s loop. -/
abbrev RecMap := List (String × Value)

/-- Embeds the loop of `getResultantRow` (src/database.go:161-167):
walk the populated scan targets with a running index into `cols`,
assigning `resultRow[cols[count]] = getRowValue(v)`. -/
def buildRecord (row : List ScanTarget) (cols : List String) : RecMap :=
  (row.zip cols).foldl (fun m p => mapInsert m p.2 (getRowValue p.1)) []

/-- The driver's row-population step (`rowResult.Scan(row...)`): takes
the freshly allocated targets and either fails or returns them
populated. It is external code, so each cursor row carries it as an
opaque function. -/
abbrev ScanFun := List ScanTarget → Except Err (List ScanTarget)

/-- Embeds `getResultantRow` (src/database.go:155-169): allocate the
targets via `makeRow`, scan, and on success fold the populated targets
into a generic record. -/
def getResultantRow (cols : List String) (typeMapping : List (String × String))
    (scan : ScanFun) : Except Err RecMap :=
  match scan (makeRow typeMapping cols) with
  | .error e => .error e
  | .ok row => .ok (buildRecord row cols)

/-- A cursor trace: everything the driver reports to the result walker.
`columns` is the outcome of `rowResult.Columns()`, `columnTypes` of
`rowResult.ColumnTypes()` (as name/database-type pairs), `rows` the
scan outcome of each row `Next` yields, and `errResult` the terminal
`rowResult.Err()`. -/
structure Cursor where
  columns : Except Err (List String)
  columnTypes : Except Err (List (String × String))
  rows : List ScanFun
  errResult : Option Err

/-- Outcome of a walk, instrumented with the number of times
`rowResult.Close()` ran before the operation returned. -/
structure WalkResult where
  result : Except Err (List RecMap)
  closes : Nat
deriving Repr

/-- Embeds the loop body of `rowResultWalk` (src/database.go:174-185):
while `Next` yields a row, materialize it (aborting with the error on
failure), else check the cursor's terminal error. -/
def walkRows (cols : List String) (typeMapping : List (String × String)) :
    List ScanFun → List RecMap → Option Err → Except Err (List RecMap)
  | [], acc, errRes =>
      match errRes with
      | some e => .error e
      | none => .ok acc
  | r :: rs, acc, errRes =>
      match getResultantRow cols typeMapping r with
      | .error e => .error e
      | .ok resultRow => walkRows cols typeMapping rs (acc ++ [resultRow]) errRes

/-- Embeds `rowResultWalk` (src/database.go:171-186): `defer
rowResult.Close()` runs exactly once on every path out of this
function, so `closes` is 1 whichever way `walkRows` ends. -/
def rowResultWalk (cur : Cursor) (cols : List String)
    (typeMapping : List (String × String)) : WalkResult :=
  { result := walkRows cols typeMapping cur.rows [] cur.errResult, closes := 1 }

/-- Embeds `getTypeMapping` (src/database.go:146-153). -/
def getTypeMapping (cur : Cursor) : Except Err (List (String × String)) :=
  match cur.columnTypes with
  | .error e => .error e
  | .ok colTypes => .ok (mapColTypes colTypes)

/-- Embeds `parseRowResults` (src/database.go:133-144): read column
names, read column types, then walk. The early returns on the two
metadata errors happen before `rowResultWalk` is entered, hence before
its deferred `Close` is armed: no close runs on those paths. -/
def parseRowResults (cur : Cursor) : WalkResult :=
  match cur.columns with
  | .error e => { result := .error e, closes := 0 }
  | .ok cols =>
      match getTypeMapping cur with
      | .error e => { result := .error e, closes := 0 }
      | .ok typeMapping => rowResultWalk cur cols typeMapping

/-- Embeds `QueryRaw` (src/database.go:125-131): `getRowResult` either
fails (query error / reflection check) or yields the cursor, which is
then parsed. The fetch outcome is the parameter. -/
def QueryRaw (fetch : Except Err Cursor) : Except Err (List RecMap) :=
  match fetch with
  | .error e => .error e
  | .ok cur => (parseRowResults cur).result

/-- Embeds `Row` (src/unnamed/part_000:702-713): run the query with the
id bound, error out verbatim on failure, return the distinct error
message when no rows came back, else the first row. -/
def Row (fetch : Except Err Cursor) : Except Err RecMap :=
  match QueryRaw fetch with
  | .error e => .error e
  | .ok rows => if rows.length < 1 then .error "no result" else .ok rows.headI

/-- Embeds `RowByStringField` (src/unnamed/part_000:716-727): same
shape as `Row`, with the string field bound instead of the id. -/
def RowByStringField (fetch : Except Err Cursor) : Except Err RecMap :=
  match QueryRaw fetch with
  | .error e => .error e
  | .ok rows => if rows.length < 1 then .error "no result" else .ok rows.headI

/-- What the driver's `Exec` reports on success: `sql.Result`'s
`LastInsertId()` and `RowsAffected()` values. -/
structure ExecResult where
  lastInsertId : Int
  rowsAffected : Int
deriving DecidableEq, Repr

/-- A `Record` (src/unnamed/part_000:513-517): the property map (Go map
iteration order carried as list order), the owning database's name, and
the table name. -/
structure Record where
  properties : List (String × Value)
  dbName : String
  table : String

/-- Embeds Go `strings.TrimRight(s, ", ")`: strip every trailing
character that is a comma or a space. -/
def trimRightCommaSpace (s : String) : String :=
  ⟨(s.data.reverse.dropWhile fun c => c = ',' ∨ c = ' ').reverse⟩

/-- The abstract `Database.Exec` operation (external driver): statement
and bound parameters in, `ExecResult` or error out. -/
abbrev ExecFun := String → List Value → Except Err ExecResult

/-- Embeds `Record.Update` (src/unnamed/part_000:995-1027): an empty
key-column name falls back to `"id"`; the property loop appends
`field = ?, ` and the bound value for every non-key field and builds the
WHERE clause when it meets the key field; the key's value is then bound
last (a missing key reads as Go's nil interface); the statement is the
trimmed SET list plus the WHERE clause; and the value returned on
success is the execute result's `LastInsertId()`. -/
def Record.update (r : Record) (exec : ExecFun) (idArg : String) :
    Except Err Int :=
  let id := if idArg.length < 1 then "id" else idArg
  let stmt0 := "UPDATE `" ++ r.dbName ++ "`.`" ++ r.table ++ "` SET "
  let folded :=
    r.properties.foldl
      (fun (acc : String × String × List Value) p =>
        if p.1 = id then (acc.1, acc.2.1 ++ id ++ " = ?;", acc.2.2)
        else (acc.1 ++ p.1 ++ " = ?, ", acc.2.1, acc.2.2 ++ [p.2]))
      (stmt0, " WHERE ", [])
  let inserts := folded.2.2 ++ [(mapLookup r.properties id).getD Value.vNull]
  let stmt := trimRightCommaSpace folded.1 ++ folded.2.1
  match exec stmt inserts with
  | .error e => .error e
  | .ok res => .ok res.lastInsertId

/-- The connection `Configs` (src/database.go:21-28). -/
structure Configs where
  Host : String
  Username : String
  Password : String
  Port : String
  Database : String
  Driver : String
deriving DecidableEq, Repr

/-- The process environment, restricted to the six variables
`envConfigs` reads. -/
structure EnvVars where
  DB_HOST : String
  DB_USERNAME : String
  DB_PASSWORD : String
  DB_PORT : String
  DB_DATABASE : String
  DB_CONNECTION : String
deriving DecidableEq, Repr

/-- Embeds `envConfigs` / `getEnvVars` (src/database.go:428-446): the
config-key → environment-value map. Go map iteration order is
unspecified; the order is irrelevant here because `setDBConfig` touches
a distinct field per key, so any fixed order is faithful. -/
def envConfigs (e : EnvVars) : List (String × String) :=
  [("host", e.DB_HOST), ("username", e.DB_USERNAME),
   ("password", e.DB_PASSWORD), ("port", e.DB_PORT),
   ("database", e.DB_DATABASE), ("driver", e.DB_CONNECTION)]

/-- Embeds `setDBConfig` (src/database.go:397-426): fill the named
field from the environment value only when it is currently empty. -/
def setDBConfig (c : Configs) (key value : String) : Configs :=
  match key with
  | "host" => if c.Host.length < 1 then { c with Host := value } else c
  | "username" => if c.Username.length < 1 then { c with Username := value } else c
  | "password" => if c.Password.length < 1 then { c with Password := value } else c
  | "port" => if c.Port.length < 1 then { c with Port := value } else c
  | "database" => if c.Database.length < 1 then { c with Database := value } else c
  | "driver" => if c.Driver.length < 1 then { c with Driver := value } else c
  | _ => c

/-- Embeds `supplementConfigs` (src/database.go:387-395): walk the
environment map, skipping the `database` key in schemaless mode. -/
def supplementConfigs (schemaless : Bool) (e : EnvVars) (c : Configs) : Configs :=
  (envConfigs e).foldl
    (fun c p => if p.1 = "database" ∧ schemaless then c else setDBConfig c p.1 p.2)
    c

/-- Embeds `hasAllConfigs` (src/database.go:84-97): all fields
non-empty, the database field exempted in schemaless mode. -/
def hasAllConfigs (schemaless : Bool) (c : Configs) : Bool :=
  (if schemaless then true else decide (c.Database.length > 0)) &&
  decide (c.Driver.length > 0) &&
  decide (c.Host.length > 0) &&
  decide (c.Password.length > 0) &&
  decide (c.Port.length > 0) &&
  decide (c.Username.length > 0)

/-- Embeds `setConfigs` (src/database.go:75-82): supplement from the
environment only when some required field is missing. -/
def setConfigs (schemaless : Bool) (e : EnvVars) (c : Configs) : Configs :=
  if hasAllConfigs schemaless c then c else supplementConfigs schemaless e c

/-- A `Database` (src/database.go:15-19); the live `*sql.DB` handle is
represented by the connection string `connect` opened it with. -/
structure Database where
  connection : String
  configs : Configs
  Schemaless : Bool
deriving DecidableEq, Repr

/-- Embeds `connect` (src/database.go:99-115): build
`username:password@tcp(host:port)/`, append the database name unless
schemaless, and (re)open the connection on it. -/
def connect (d : Database) : Database :=
  let connectionString :=
    d.configs.Username ++ ":" ++ d.configs.Password ++ "@tcp(" ++
      d.configs.Host ++ ":" ++ d.configs.Port ++ ")/" ++
      (if d.Schemaless then "" else d.configs.Database)
  { d with connection := connectionString }

/-- Embeds `Make` (src/database.go:31-41): fresh instance, configs
supplemented in non-schemaless mode, then connected. -/
def Make (configs : Configs) (e : EnvVars) : Database :=
  connect { connection := "", configs := setConfigs false e configs,
            Schemaless := false }

/-- Embeds `MakeSchemaless` (src/database.go:44-55). -/
def MakeSchemaless (configs : Configs) (e : EnvVars) : Database :=
  connect { connection := "", configs := setConfigs true e configs,
            Schemaless := true }

/-- Embeds `SetSchema` (src/database.go:118-122): set the database
field, clear the schemaless flag, reconnect. -/
def SetSchema (d : Database) (schemaName : String) : Database :=
  connect { d with configs := { d.configs with Database := schemaName },
                   Schemaless := false }

/-- A cursor over one `VARCHAR` column `sku` whose single row holds a
database NULL: `Scan` leaves the `sql.NullString` target at the empty
string with `Valid` false. Used to exhibit how null columns
materialize. -/
def nullSkuCursor : Cursor :=
  { columns := .ok ["sku"],
    columnTypes := .ok [("sku", "VARCHAR")],
    rows := [fun _ => .ok [.nullString "" false]],
    errResult := none }

/-- A cursor over columns `id` (INT) and `name` (VARCHAR) whose single
row holds a NULL in each column. -/
def allNullCursor : Cursor :=
  { columns := .ok ["id", "name"],
    columnTypes := .ok [("id", "INT"), ("name", "VARCHAR")],
    rows := [fun _ => .ok [.nullInt 0 false, .nullString "" false]],
    errResult := none }

/-- A cursor whose `Columns()` call fails. -/
def columnsFailCursor : Cursor :=
  { columns := .error "columns unavailable",
    columnTypes := .ok [],
    rows := [],
    errResult := none }

/-- A cursor whose `ColumnTypes()` call fails. -/
def columnTypesFailCursor : Cursor :=
  { columns := .ok ["sku"],
    columnTypes := .error "column types unavailable",
    rows := [],
    errResult := none }

/-- A healthy one-row cursor. -/
def okCursor : Cursor :=
  { columns := .ok ["sku"],
    columnTypes := .ok [("sku", "VARCHAR")],
    rows := [fun _ => .ok [.nullString "WIDG2" true]],
    errResult := none }

/-- A cursor that yields no rows and no terminal error: the underlying
query succeeded with an empty result set. -/
def emptyCursor : Cursor :=
  { columns := .ok ["sku"],
    columnTypes := .ok [("sku", "VARCHAR")],
    rows := [],
    errResult := none }

/-- A config with an empty host and all other fields set, for
exercising per-field supplementation. -/
def partialHostConfigs : Configs :=
  ⟨"", "root", "secret", "3306", "mydb", "mysql"⟩

/-- A fully populated test environment. -/
def testEnv : EnvVars :=
  ⟨"envhost", "envuser", "envpass", "envport", "envdb", "envdriver"⟩

/-- A two-row cursor whose first row scans fine and whose second row's
scan fails. -/
def midFailCursor : Cursor :=
  { columns := .ok ["sku"],
    columnTypes := .ok [("sku", "VARCHAR")],
    rows := [fun _ => .ok [.nullString "WIDG1" true],
             fun _ => .error "scan failure on row 2"],
    errResult := none }

/-- Helper: a Go `len(s) < 1` test succeeds exactly on the empty string. -/
theorem string_length_lt_one_iff (s : String) : s.length < 1 ↔ s = "" := by
  rw [Nat.lt_one_iff]
  constructor
  · intro h
    apply String.ext
    simpa using List.length_eq_zero.mp h
  · intro h
    subst h
    rfl

/-- Helper: looking up the key just inserted yields the inserted value. -/
theorem mapLookup_insert_self {α : Type} (m : List (String × α)) (k : String)
    (v : α) : mapLookup (mapInsert m k v) k = some v := by
  induction m with
  | nil => simp [mapInsert, mapLookup]
  | cons p rest ih =>
    obtain ⟨k0, v0⟩ := p
    by_cases h : k0 = k
    · simp [mapInsert, mapLookup, h]
    · simp [mapInsert, mapLookup, h, ih]

/-- Helper: inserting one key leaves lookups of other keys unchanged. -/
theorem mapLookup_insert_ne {α : Type} (m : List (String × α)) (k k' : String)
    (v : α) (h : k' ≠ k) :
    mapLookup (mapInsert m k v) k' = mapLookup m k' := by
  induction m with
  | nil => simp [mapInsert, mapLookup, Ne.symm h]
  | cons p rest ih =>
    obtain ⟨k0, v0⟩ := p
    by_cases h0 : k0 = k
    · subst h0
      simp [mapInsert, mapLookup, Ne.symm h]
    · simp [mapInsert, mapLookup, h0, ih]

/-- Helper: the record-building fold keeps every key that is already
present in the accumulator. -/
theorem buildRecord_fold_preserves (l : List (ScanTarget × String))
    (m : RecMap) (k : String) (h : (mapLookup m k).isSome) :
    (mapLookup (l.foldl (fun m p => mapInsert m p.2 (getRowValue p.1)) m)
      k).isSome := by
  induction l generalizing m with
  | nil => exact h
  | cons p rest ih =>
    rw [List.foldl_cons]
    apply ih
    by_cases hk : p.2 = k
    · subst hk
      rw [mapLookup_insert_self]
      rfl
    · rw [mapLookup_insert_ne _ _ _ _ (fun he => hk he.symm)]
      exact h

/-- Helper: the record-building fold makes every column name it visits
present as a key. -/
theorem buildRecord_fold_mem : ∀ (l : List (ScanTarget × String))
    (m : RecMap) (k : String), k ∈ l.map Prod.snd →
    (mapLookup (l.foldl (fun m p => mapInsert m p.2 (getRowValue p.1)) m)
      k).isSome
  | [], m, k, h => by simp at h
  | p :: rest, m, k, h => by
    rw [List.foldl_cons]
    rw [List.map_cons] at h
    rcases List.mem_cons.mp h with h1 | h2
    · subst h1
      apply buildRecord_fold_preserves
      rw [mapLookup_insert_self]
      rfl
    · exact buildRecord_fold_mem rest _ k h2

/-- Helper: a record built from a scanned row of the same length as the
column list has every column name as a key. -/
theorem buildRecord_has_key (row : List ScanTarget) (cols : List String)
    (hlen : row.length = cols.length) (c : String) (hc : c ∈ cols) :
    (mapLookup (buildRecord row cols) c).isSome := by
  unfold buildRecord
  apply buildRecord_fold_mem
  rw [List.map_snd_zip row cols (le_of_eq hlen.symm)]
  exact hc

/-- Helper: a mid-walk materialization failure makes the whole walk
return that error, whatever was accumulated so far. -/
theorem walkRows_error_of_row_error (cols : List String)
    (tm : List (String × String)) (bad : ScanFun) (e : Err) :
    ∀ (pre rest : List ScanFun) (acc : List RecMap) (errRes : Option Err),
    (∀ g ∈ pre, ∃ rec, getResultantRow cols tm g = .ok rec) →
    getResultantRow cols tm bad = .error e →
    walkRows cols tm (pre ++ bad :: rest) acc errRes = .error e
  | [], rest, acc, errRes, _, hbad => by
    simp only [List.nil_append, walkRows, hbad]
  | g :: pre, rest, acc, errRes, hpre, hbad => by
    obtain ⟨rec, hg⟩ := hpre g (List.mem_cons_self g pre)
    simp only [List.cons_append, walkRows, hg]
    exact walkRows_error_of_row_error cols tm bad e pre rest _ errRes
      (fun g' hg' => hpre g' (List.mem_cons_of_mem g hg')) hbad

/-- Helper: every record in a successful walk's output was either in
the accumulator already or was materialized from one of the rows. -/
theorem walkRows_ok_mem (cols : List String) (tm : List (String × String)) :
    ∀ (rows : List ScanFun) (acc : List RecMap) (errRes : Option Err)
      (recs : List RecMap), walkRows cols tm rows acc errRes = .ok recs →
    ∀ rec ∈ recs, rec ∈ acc ∨
      ∃ scan ∈ rows, getResultantRow cols tm scan = .ok rec
  | [], acc, errRes, recs, h => by
    match herr : errRes with
    | some e => simp [walkRows, herr] at h
    | none =>
      simp only [walkRows, herr] at h
      intro rec hrec
      injection h with h
      exact Or.inl (h.symm ▸ hrec)
  | r :: rs, acc, errRes, recs, h => by
    intro rec hrec
    match hr : getResultantRow cols tm r with
    | .error e => rw [walkRows, hr] at h; exact absurd h (by simp)
    | .ok resultRow =>
      rw [walkRows, hr] at h
      rcases walkRows_ok_mem cols tm rs (acc ++ [resultRow]) errRes recs h
          rec hrec with hin | ⟨scan, hs, hok⟩
      · rcases List.mem_append.mp hin with hin' | hin''
        · exact Or.inl hin'
        · refine Or.inr ⟨r, List.mem_cons_self r rs, ?_⟩
          rw [hr]
          simp only [List.mem_singleton] at hin''
          rw [hin'']
      · exact Or.inr ⟨scan, List.mem_cons_of_mem r hs, hok⟩

/-- Helper: `setDBConfig` at the literal key `host`. -/
theorem setDBConfig_host (c : Configs) (v : String) :
    setDBConfig c "host" v =
      if c.Host.length < 1 then { c with Host := v } else c := rfl

/-- Helper: `setDBConfig` at the literal key `username`. -/
theorem setDBConfig_username (c : Configs) (v : String) :
    setDBConfig c "username" v =
      if c.Username.length < 1 then { c with Username := v } else c := rfl

/-- Helper: `setDBConfig` at the literal key `password`. -/
theorem setDBConfig_password (c : Configs) (v : String) :
    setDBConfig c "password" v =
      if c.Password.length < 1 then { c with Password := v } else c := rfl

/-- Helper: `setDBConfig` at the literal key `port`. -/
theorem setDBConfig_port (c : Configs) (v : String) :
    setDBConfig c "port" v =
      if c.Port.length < 1 then { c with Port := v } else c := rfl

/-- Helper: `setDBConfig` at the literal key `database`. -/
theorem setDBConfig_database (c : Configs) (v : String) :
    setDBConfig c "database" v =
      if c.Database.length < 1 then { c with Database := v } else c := rfl

/-- Helper: `setDBConfig` at the literal key `driver`. -/
theorem setDBConfig_driver (c : Configs) (v : String) :
    setDBConfig c "driver" v =
      if c.Driver.length < 1 then { c with Driver := v } else c := rfl

/-- Helper: in non-schemaless mode the supplementation walk applies
`setDBConfig` for all six keys in map order. -/
theorem supplementConfigs_false_eq (e : EnvVars) (c : Configs) :
    supplementConfigs false e c =
      setDBConfig (setDBConfig (setDBConfig (setDBConfig (setDBConfig
        (setDBConfig c "host" e.DB_HOST) "username" e.DB_USERNAME)
        "password" e.DB_PASSWORD) "port" e.DB_PORT)
        "database" e.DB_DATABASE) "driver" e.DB_CONNECTION := by
  simp [supplementConfigs, envConfigs]

/-- Helper: in schemaless mode the supplementation walk skips the
`database` key. -/
theorem supplementConfigs_true_eq (e : EnvVars) (c : Configs) :
    supplementConfigs true e c =
      setDBConfig (setDBConfig (setDBConfig (setDBConfig
        (setDBConfig c "host" e.DB_HOST) "username" e.DB_USERNAME)
        "password" e.DB_PASSWORD) "port" e.DB_PORT)
        "driver" e.DB_CONNECTION := by
  simp [supplementConfigs, envConfigs]

/-- Helper: field-by-field effect of `supplementConfigs`. -/
theorem supplementConfigs_fields (b : Bool) (e : EnvVars) (c : Configs) :
    supplementConfigs b e c =
      ⟨if c.Host.length < 1 then e.DB_HOST else c.Host,
       if c.Username.length < 1 then e.DB_USERNAME else c.Username,
       if c.Password.length < 1 then e.DB_PASSWORD else c.Password,
       if c.Port.length < 1 then e.DB_PORT else c.Port,
       if b then c.Database
         else if c.Database.length < 1 then e.DB_DATABASE else c.Database,
       if c.Driver.length < 1 then e.DB_CONNECTION else c.Driver⟩ := by
  by_cases h1 : c.Host.length < 1 <;>
  by_cases h2 : c.Username.length < 1 <;>
  by_cases h3 : c.Password.length < 1 <;>
  by_cases h4 : c.Port.length < 1 <;>
  by_cases h5 : c.Database.length < 1 <;>
  by_cases h6 : c.Driver.length < 1 <;>
  cases b <;>
  simp [supplementConfigs_false_eq, supplementConfigs_true_eq,
    setDBConfig_host, setDBConfig_username, setDBConfig_password,
    setDBConfig_port, setDBConfig_database, setDBConfig_driver,
    h1, h2, h3, h4, h5, h6]

/-- Helper: a string has length zero exactly when it is empty. -/
theorem string_length_eq_zero_iff (s : String) : s.length = 0 ↔ s = "" := by
  rw [← Nat.lt_one_iff]
  exact string_length_lt_one_iff s

/-- Helper: what `hasAllConfigs` returning true says about the fields. -/
theorem hasAllConfigs_spec (b : Bool) (c : Configs)
    (h : hasAllConfigs b c = true) :
    c.Host ≠ "" ∧ c.Username ≠ "" ∧ c.Password ≠ "" ∧ c.Port ≠ "" ∧
    c.Driver ≠ "" ∧ (b = false → c.Database ≠ "") := by
  cases b <;>
    simp only [hasAllConfigs, Bool.and_eq_true, decide_eq_true_eq,
      if_true, if_false] at h <;>
    refine ⟨?_, ?_, ?_, ?_, ?_, ?_⟩ <;>
    intro hh <;>
    simp_all [← string_length_lt_one_iff]
  all_goals omega



/-- Claim C7: config supplementation is per-field. `Make` and
`MakeSchemaless` run `setConfigs` on the given configs, and for either
mode: every field that was non-empty keeps its explicit value; every
required field that was empty receives the corresponding environment
variable's value; and in schemaless mode the database field is never
filled from the environment. -/
theorem c7_config_supplementation_per_field (b : Bool) (e : EnvVars) (c : Configs) :
    (Make c e).configs = setConfigs false e c ∧
    (MakeSchemaless c e).configs = setConfigs true e c ∧
    (c.Host ≠ "" → (setConfigs b e c).Host = c.Host) ∧
    (c.Host = "" → (setConfigs b e c).Host = e.DB_HOST) ∧
    (c.Username ≠ "" → (setConfigs b e c).Username = c.Username) ∧
    (c.Username = "" → (setConfigs b e c).Username = e.DB_USERNAME) ∧
    (c.Password ≠ "" → (setConfigs b e c).Password = c.Password) ∧
    (c.Password = "" → (setConfigs b e c).Password = e.DB_PASSWORD) ∧
    (c.Port ≠ "" → (setConfigs b e c).Port = c.Port) ∧
    (c.Port = "" → (setConfigs b e c).Port = e.DB_PORT) ∧
    (c.Driver ≠ "" → (setConfigs b e c).Driver = c.Driver) ∧
    (c.Driver = "" → (setConfigs b e c).Driver = e.DB_CONNECTION) ∧
    (c.Database ≠ "" → (setConfigs b e c).Database = c.Database) ∧
    (b = false → c.Database = "" → (setConfigs b e c).Database = e.DB_DATABASE) ∧
    (b = true → (setConfigs b e c).Database = c.Database) := by
  refine ⟨rfl, rfl, ?_⟩
  by_cases hA : hasAllConfigs b c = true
  · obtain ⟨n1, n2, n3, n4, n5, n6⟩ := hasAllConfigs_spec b c hA
    have hcc : setConfigs b e c = c := by simp [setConfigs, hA]
    rw [hcc]
    exact ⟨fun _ => rfl, fun h => absurd h n1, fun _ => rfl, fun h => absurd h n2,
      fun _ => rfl, fun h => absurd h n3, fun _ => rfl, fun h => absurd h n4,
      fun _ => rfl, fun h => absurd h n5, fun _ => rfl,
      fun hb h => absurd h (n6 hb), fun _ => rfl⟩
  · have hcc : setConfigs b e c = supplementConfigs b e c := by
      simp [setConfigs, hA]
    rw [hcc, supplementConfigs_fields]
    cases b <;>
      refine ⟨?_, ?_, ?_, ?_, ?_, ?_, ?_, ?_, ?_, ?_, ?_, ?_, ?_⟩ <;>
      intro h <;>
      simp_all [string_length_lt_one_iff, string_length_eq_zero_iff]

/-- Claim C1, counterexample: a query over one `VARCHAR` column whose
single row is database-null produces a Generic Record that maps the
column to the empty string — a zero value, which is not a null/absent
value — contradicting the claim that the value is null/absent. -/
theorem c1_null_column_zero_value_counterexample :
    QueryRaw (.ok nullSkuCursor) = .ok [[("sku", Value.vStr "")]] ∧
    Value.vStr "" ≠ Value.vNull :=
  ⟨rfl, by decide⟩

/-- Claim C1 (amended): when a scan target's is-valid flag is false the
recorded value is the holder's payload — the zero value left by a null
scan (empty string, 0, or 0.0) — not a null/absent value; `getRowValue`
returns the payload of every holder kind regardless of the flag. -/
theorem c1_value_is_payload_regardless_of_valid_flag (s : String) (i : Int)
    (q : Rat) (b : Bool) :
    getRowValue (.nullString s b) = .vStr s ∧
    getRowValue (.nullInt i b) = .vInt i ∧
    getRowValue (.nullFloat q b) = .vFloat q :=
  ⟨rfl, rfl, rfl⟩

/-- Claim C2: for every successful `Record.Update`, the returned
integer is the execute result's last-insert id — not its affected-row
count as the claim states. At an execute outcome with last-insert id
`li` and affected-row count `ra`, the function returns `li`. -/
theorem c2_update_returns_last_insert_id (r : Record) (idArg : String)
    (li ra : Int) :
    r.update (fun _ _ => .ok ⟨li, ra⟩) idArg = .ok li := rfl

/-- Claim C3: the cursor is NOT closed exactly once on every exit path
of the result-walking operation. On the early returns for a failing
column-name read or a failing column-type read the cursor is never
closed (0 closes), while the paths that reach the walk loop close it
exactly once. -/
theorem c3_cursor_left_open_on_metadata_error :
    (parseRowResults columnsFailCursor).closes = 0 ∧
    (parseRowResults columnsFailCursor).result = .error "columns unavailable" ∧
    (parseRowResults columnTypesFailCursor).closes = 0 ∧
    (parseRowResults columnTypesFailCursor).result =
      .error "column types unavailable" ∧
    (parseRowResults okCursor).closes = 1 ∧
    (parseRowResults midFailCursor).closes = 1 :=
  ⟨rfl, rfl, rfl, rfl, rfl, rfl⟩

/-- Claim C4, counterexample: the dispatch on the reported type name is
case-sensitive, not case-insensitive: `INT` resolves to the nullable
integer kind but its lowercase spelling `int` falls to the default
nullable-string kind, so the two spellings do not resolve to the same
scan-target kind. -/
theorem c4_case_sensitive_counterexample :
    resolveKind "INT" = ColKind.nullInt ∧
    resolveKind "int" = ColKind.nullString ∧
    resolveKind "int" ≠ resolveKind "INT" :=
  ⟨rfl, rfl, by decide⟩

/-- Claim C4 (amended): the dispatch is a case-sensitive exact match on
the uppercase type names: each listed uppercase name resolves to its
family's kind, while the lowercase spellings of the integer and float
family names are unrecognized and fall to the default nullable-string
kind. -/
theorem c4_dispatch_case_sensitive_exact :
    (∀ s ∈ intTypeNames, resolveKind s = ColKind.nullInt) ∧
    (∀ s ∈ floatTypeNames, resolveKind s = ColKind.nullFloat) ∧
    (∀ s ∈ stringTypeNames, resolveKind s = ColKind.nullString) ∧
    (∀ s ∈ ["int", "bit", "tinyint", "bool", "boolean", "smallint",
            "mediumint", "integer", "bigint", "float", "double", "decimal",
            "dec"], resolveKind s = ColKind.nullString) := by
  refine ⟨by decide, by decide, by decide, by decide⟩

/-- Claim C4 witness: the amended theorem applied at the concrete type
names `VARCHAR` and `decimal`. -/
theorem c4_dispatch_case_sensitive_exact_witness :
    resolveKind "VARCHAR" = ColKind.nullString ∧
    resolveKind "decimal" = ColKind.nullString :=
  ⟨c4_dispatch_case_sensitive_exact.2.2.1 "VARCHAR" (by decide),
   c4_dispatch_case_sensitive_exact.2.2.2 "decimal" (by decide)⟩

/-- Claim C5: a row-materialization failure mid-walk makes the whole
operation return that error; the records accumulated before the failure
are discarded, never returned as a partial sequence. -/
theorem c5_row_error_aborts_whole_walk (cur : Cursor) (cols : List String)
    (tm : List (String × String)) (pre rest : List ScanFun) (bad : ScanFun)
    (e : Err) (hcols : cur.columns = .ok cols)
    (htm : getTypeMapping cur = .ok tm)
    (hrows : cur.rows = pre ++ bad :: rest)
    (hpre : ∀ g ∈ pre, ∃ rec, getResultantRow cols tm g = .ok rec)
    (hbad : getResultantRow cols tm bad = .error e) :
    (parseRowResults cur).result = .error e := by
  simp only [parseRowResults, hcols, htm, rowResultWalk, hrows]
  exact walkRows_error_of_row_error cols tm bad e pre rest [] cur.errResult
    hpre hbad

/-- Claim C5 witness: the theorem applied to a concrete two-row cursor
whose second row's scan fails. -/
theorem c5_row_error_aborts_whole_walk_witness :
    (parseRowResults midFailCursor).result = .error "scan failure on row 2" :=
  c5_row_error_aborts_whole_walk midFailCursor ["sku"] [("sku", "VARCHAR")]
    [fun _ => .ok [.nullString "WIDG1" true]] []
    (fun _ => .error "scan failure on row 2") "scan failure on row 2"
    rfl rfl rfl
    (by intro g hg
        rw [List.mem_singleton] at hg
        subst hg
        exact ⟨[("sku", Value.vStr "WIDG1")], rfl⟩)
    rfl

/-- Claim C6, counterexample: for a row whose columns are all
database-null, every column name is present as a key, but the value
stored under it is the kind's zero value (here `0` and `""`), not a
null/absent value as the claim states. -/
theorem c6_key_present_value_not_null_counterexample :
    QueryRaw (.ok allNullCursor) =
      .ok [[("id", Value.vInt 0), ("name", Value.vStr "")]] ∧
    mapLookup [("id", Value.vInt 0), ("name", Value.vStr "")] "name" =
      some (Value.vStr "") ∧
    Value.vStr "" ≠ Value.vNull :=
  ⟨rfl, rfl, by decide⟩

/-- Claim C6 (amended): every column name in the query's column
descriptors appears as a key in every Generic Record produced from the
cursor — including rows whose values are database-null, where the
stored value is the resolved kind's zero value rather than null/absent.
The hypothesis on `scan` is the driver's contract that a successful
row-population call fills exactly one target per column. -/
theorem c6_every_column_name_is_a_key (cur : Cursor) (cols : List String)
    (tm : List (String × String)) (recs : List RecMap)
    (hcols : cur.columns = .ok cols) (htm : getTypeMapping cur = .ok tm)
    (hscan : ∀ scan ∈ cur.rows, ∀ row, scan (makeRow tm cols) = .ok row →
      row.length = cols.length)
    (hres : (parseRowResults cur).result = .ok recs) :
    ∀ rec ∈ recs, ∀ c ∈ cols, (mapLookup rec c).isSome := by
  simp only [parseRowResults, hcols, htm, rowResultWalk] at hres
  intro rec hrec c hc
  rcases walkRows_ok_mem cols tm cur.rows [] cur.errResult recs hres rec hrec
    with hin | ⟨scan, hs, hok⟩
  · simp at hin
  · unfold getResultantRow at hok
    match hscanres : scan (makeRow tm cols) with
    | .error e' =>
      rw [hscanres] at hok
      exact absurd hok (by simp)
    | .ok row =>
      rw [hscanres] at hok
      injection hok with hok
      rw [← hok]
      exact buildRecord_has_key row cols (hscan scan hs row hscanres) c hc

/-- Claim C6 witness: the amended theorem applied to the concrete
all-null cursor: both column names are keys of the produced record. -/
theorem c6_every_column_name_is_a_key_witness :
    (mapLookup [("id", Value.vInt 0), ("name", Value.vStr "")] "name").isSome :=
  c6_every_column_name_is_a_key allNullCursor ["id", "name"]
    [("id", "INT"), ("name", "VARCHAR")]
    [[("id", Value.vInt 0), ("name", Value.vStr "")]] rfl rfl
    (by intro scan hs row hrow
        simp only [allNullCursor, List.mem_singleton] at hs
        subst hs
        injection hrow with hrow
        rw [← hrow]
        rfl)
    rfl
    [("id", Value.vInt 0), ("name", Value.vStr "")] (by simp) "name" (by simp)



/-- Claim C7 witness: the theorem applied in schemaless mode to a
config whose host is empty and whose other fields are set: the host is
filled from the environment, the explicit username wins over the
environment, and the database field keeps its explicit value. -/
theorem c7_config_supplementation_per_field_witness :
    (setConfigs true testEnv partialHostConfigs).Host = "envhost" ∧
    (setConfigs true testEnv partialHostConfigs).Username = "root" ∧
    (setConfigs true testEnv partialHostConfigs).Database = "mydb" :=
  ⟨(c7_config_supplementation_per_field true testEnv partialHostConfigs).2.2.2.1
      rfl,
   (c7_config_supplementation_per_field true testEnv partialHostConfigs).2.2.2.2.1
      (by decide),
   (c7_config_supplementation_per_field true testEnv
      partialHostConfigs).2.2.2.2.2.2.2.2.2.2.2.2.2.2 rfl⟩

/-- Claim C8: a single-row lookup whose underlying query succeeds with
zero rows returns the distinct explicit error `no result` (not an empty
record and not a nil error), and a lookup whose query yields at least
one row returns the first row's Generic Record with no error; this
holds for both `Row` and `RowByStringField`. -/
theorem c8_single_row_lookup_no_result (fetch : Except Err Cursor)
    (rows : List RecMap) (hq : QueryRaw fetch = .ok rows) :
    (rows = [] → Row fetch = .error "no result" ∧
      RowByStringField fetch = .error "no result") ∧
    (∀ r rest, rows = r :: rest → Row fetch = .ok r ∧
      RowByStringField fetch = .ok r) := by
  constructor
  · intro h
    subst h
    constructor <;> simp [Row, RowByStringField, hq]
  · intro r rest h
    subst h
    constructor <;> simp [Row, RowByStringField, hq]

/-- Claim C8 witness: the theorem applied to a concrete empty cursor
(distinct `no result` error) and to a concrete one-row cursor (first
row returned). -/
theorem c8_single_row_lookup_no_result_witness :
    Row (.ok emptyCursor) = .error "no result" ∧
    RowByStringField (.ok emptyCursor) = .error "no result" ∧
    Row (.ok okCursor) = .ok [("sku", Value.vStr "WIDG2")] :=
  ⟨((c8_single_row_lookup_no_result (.ok emptyCursor) [] rfl).1 rfl).1,
   ((c8_single_row_lookup_no_result (.ok emptyCursor) [] rfl).1 rfl).2,
   ((c8_single_row_lookup_no_result (.ok okCursor)
      [[("sku", Value.vStr "WIDG2")]] rfl).2
      [("sku", Value.vStr "WIDG2")] [] rfl).1⟩

/-- Claim C9: the type resolver returns one of exactly three
scan-target kinds; the listed integer-family names map to the nullable
integer kind, the float/decimal family to nullable float, the
text/binary/enum/temporal family to nullable string, and every name
outside the listed vocabulary deterministically maps to nullable
string. -/
theorem c9_resolver_three_kinds_total :
    (∀ s : String, resolveKind s = ColKind.nullInt ∨
      resolveKind s = ColKind.nullFloat ∨
      resolveKind s = ColKind.nullString) ∧
    (∀ s ∈ intTypeNames, resolveKind s = ColKind.nullInt) ∧
    (∀ s ∈ floatTypeNames, resolveKind s = ColKind.nullFloat) ∧
    (∀ s ∈ stringTypeNames, resolveKind s = ColKind.nullString) ∧
    (∀ s : String, s ∉ intTypeNames → s ∉ floatTypeNames →
      s ∉ stringTypeNames → resolveKind s = ColKind.nullString) := by
  refine ⟨?_, by decide, by decide, by decide, ?_⟩
  · intro s
    cases h : resolveKind s
    · exact Or.inl rfl
    · exact Or.inr (Or.inl rfl)
    · exact Or.inr (Or.inr rfl)
  · intro s hi hf hs
    unfold resolveKind
    split
    all_goals first
      | rfl
      | exact absurd (by decide) hi
      | exact absurd (by decide) hf

/-- Claim C9 witness: the theorem applied at the listed name `BIGINT`
and at the unlisted name `GEOMETRY`. -/
theorem c9_resolver_three_kinds_total_witness :
    resolveKind "BIGINT" = ColKind.nullInt ∧
    resolveKind "GEOMETRY" = ColKind.nullString :=
  ⟨c9_resolver_three_kinds_total.2.1 "BIGINT" (by decide),
   c9_resolver_three_kinds_total.2.2.2.2 "GEOMETRY" (by decide) (by decide)
     (by decide)⟩

/-- Claim C10: `SetSchema` changes only the configs' database field (to
the given schema name) and the `Schemaless` flag (to false); the host,
username, password, port and driver fields are unchanged. -/
theorem c10_setschema_frame (d : Database) (schemaName : String) :
    (SetSchema d schemaName).configs.Host = d.configs.Host ∧
    (SetSchema d schemaName).configs.Username = d.configs.Username ∧
    (SetSchema d schemaName).configs.Password = d.configs.Password ∧
    (SetSchema d schemaName).configs.Port = d.configs.Port ∧
    (SetSchema d schemaName).configs.Driver = d.configs.Driver ∧
    (SetSchema d schemaName).configs.Database = schemaName ∧
    (SetSchema d schemaName).Schemaless = false :=
  ⟨rfl, rfl, rfl, rfl, rfl, rfl, rfl⟩

end MySqlDB
